import Mathlib

/-!
Verification development for the MMAD-SDK permission / redemption core.

The definitions below are a shallow embedding of the TypeScript source:

* `src/unnamed/part_003` — `applyDefaults`, `ensureConfig`, `applyHook`,
  `buildBaseRequest` (permission-request construction);
* `src/core/redeem.ts` — `ensureRedeemConfig`, `applyHook`, `redeemPermission`;
* `src/core/redeem-auto.ts` — `autoRedeem`;
* `src/utils/redeem-call-data.ts` — `buildRedeemCallData`;
* `src/utils/defaults.ts` — `DEFAULT_PERMISSION_VALUES`;
* `src/unnamed/part_000` — `SUPPORTED_CHAIN_IDS`, `isSupportedChain`;
* `src/index.ts` (second document, the errors module) —
  `InvalidPermissionConfigError`, `UserRejectedError`,
  `MissingBrowserProviderError`, `MissingRequestExecutionPermissionsError`.

JavaScript-level conventions used throughout the embedding:

* a field of TypeScript type `T | undefined` (or `T | null`) is `Option T`;
  `none` stands for `undefined`/`null`;
* JS truthiness tests (`if (x)`, `!x`, `x || d`) are made explicit per type:
  a string is falsy iff it is empty, a number is falsy iff it equals `0`
  (`truthyS`, `truthyI`, `jsOrS`, `jsOrI` below);
* `x ?? d` (nullish coalescing) is `Option.getD`;
* thrown errors are modelled by `Except JsError`; asynchronous code is
  sequential (the source awaits every suspension point in order), so
  promises collapse to plain values, except where a promise's own
  truthiness is observable (`autoApplyHook` below);
* function-valued option fields (hooks, `customRedeem`, `walletClient`,
  `fetch`) are passed to the models as explicit environment/hook records,
  since they are behaviors supplied by the caller.
-/

namespace MMAD

/-- Decidable equality for `Except`, used to evaluate the models on
concrete inputs. -/
instance {ε α : Type} [DecidableEq ε] [DecidableEq α] : DecidableEq (Except ε α) := fun a b =>
  match a, b with
  | .ok x, .ok y =>
    if h : x = y then isTrue (by rw [h]) else isFalse (fun c => by cases c; exact h rfl)
  | .error x, .error y =>
    if h : x = y then isTrue (by rw [h]) else isFalse (fun c => by cases c; exact h rfl)
  | .ok _, .error _ => isFalse (fun c => by cases c)
  | .error _, .ok _ => isFalse (fun c => by cases c)

/-! ### String helpers for the embedded JS string operations

All string processing is done on `List Char` with structural recursion, so
that every definition evaluates inside the kernel; `String` values convert
through `String.toList` / `String.mk`. -/

/-- Digits-only test, the embedding of the regex class `[0-9]*`. -/
def allDigits (cs : List Char) : Bool :=
  cs.all Char.isDigit

/-- Numeric value of a digit string, the embedding of `BigInt(s)` on digit
strings (the empty string gives `0`, matching `BigInt("")`). -/
def natOfDigits (cs : List Char) : Nat :=
  cs.foldl (fun n c => 10 * n + (c.toNat - 48)) 0

/-- Removal of trailing zero characters, the embedding of
`fraction.replace(/(0+)$/, "")`. -/
def trimTrailingZeros (cs : List Char) : List Char :=
  (cs.reverse.dropWhile (fun c => c = '0')).reverse

/-- Left padding with zeros, the embedding of `s.padStart(n, "0")`. -/
def padStartZeros (cs : List Char) (n : Nat) : List Char :=
  List.replicate (n - cs.length) '0' ++ cs

/-- Right padding with zeros, the embedding of `s.padEnd(n, "0")`. -/
def padEndZeros (cs : List Char) (n : Nat) : List Char :=
  cs ++ List.replicate (n - cs.length) '0'

/-- Embedding of `s.startsWith(pre)`. -/
def charsStartWith : List Char → List Char → Bool
  | _, [] => true
  | [], _ :: _ => false
  | c :: cs, p :: ps => c = p && charsStartWith cs ps

/-- Embedding of `s.startsWith(pre)` on `String`. -/
def strStartsWith (s pre : String) : Bool :=
  charsStartWith s.toList pre.toList

/-- Splitter worker for `splitOnChar`. -/
def splitOnCharAux (sep : Char) : List Char → List Char → List (List Char)
  | [], acc => [acc.reverse]
  | c :: cs, acc =>
    if c = sep then acc.reverse :: splitOnCharAux sep cs []
    else splitOnCharAux sep cs (c :: acc)

/-- Embedding of `s.split(sep)` for a one-character separator. -/
def splitOnChar (sep : Char) (cs : List Char) : List (List Char) :=
  splitOnCharAux sep cs []

/-- Embedding of `s.trim()` (JS whitespace trimming on both ends). -/
def trimChars (cs : List Char) : List Char :=
  ((cs.dropWhile Char.isWhitespace).reverse.dropWhile Char.isWhitespace).reverse

/-- Decimal digit string of a natural number, the embedding of
JS number-to-string conversion on naturals. -/
def natDigits (n : Nat) : List Char :=
  Nat.toDigits 10 n

/-- Truthiness of an optional JS string: `undefined`, `null` and `""` are
falsy. -/
def truthyS (o : Option String) : Bool :=
  match o with
  | none => false
  | some s => !s.toList.isEmpty

/-- Truthiness of an optional JS number: `undefined` and `0` are falsy. -/
def truthyI (o : Option Int) : Bool :=
  match o with
  | none => false
  | some n => n != 0

/-- JS `a || d` on an optional string (empty string falls through to the
default). -/
def jsOrS (o : Option String) (d : String) : String :=
  match o with
  | none => d
  | some s => if s.toList.isEmpty then d else s

/-- JS `a || d` on an optional number (`0` falls through to the default). -/
def jsOrI (o : Option Int) (d : Int) : Int :=
  match o with
  | none => d
  | some n => if n = 0 then d else n

/-! ### The unit parser (viem `parseUnits`)

The source converts decimal amount strings with `parseUnits` from the
`viem` dependency (imported in `src/unnamed/part_003`,
`src/core/redeem-auto.ts` and `src/utils/redeem-call-data.ts`).  The
definitions below embed viem's `parseUnits` (viem
`utils/unit/parseUnits.ts`): the input must match
`^(-?)([0-9]*)\.?([0-9]*)$` (otherwise viem throws an
`InvalidDecimalNumberError`), trailing zeros of the fraction are trimmed,
and a fraction longer than `decimals` is ROUNDED half-up at the last kept
digit — excess precision is never rejected. -/

/-- Half-up rounding test for a digit string read as the fraction `0.s`:
`Math.round(Number("." ++ s))` reaches the next integer iff the leading
digit is at least `5`; the empty fraction gives `NaN`, which never rounds
up. -/
def fracGeHalf (cs : List Char) : Bool :=
  match cs with
  | [] => false
  | c :: _ => c.toNat ≥ 53

/-- Embedding of viem `parseUnits(value, decimals)`: scales a decimal
string by `10 ^ decimals` into an exact integer, rounding half-up when the
fraction has more than `decimals` digits.  The error case is viem's
`InvalidDecimalNumberError` for input not matching the decimal regex. -/
def parseUnits (value : String) (decimals : Nat) : Except String Int :=
  let chars := value.toList
  let negative := charsStartWith chars ['-']
  let core := if negative then chars.drop 1 else chars
  let parts := splitOnChar '.' core
  let regexOk :=
    match parts with
    | [a] => allDigits a
    | [a, b] => allDigits a && allDigits b
    | _ => false
  if !regexOk then
    .error "InvalidDecimalNumberError"
  else
    let integer := parts.headD []
    let fraction0 := match parts with
      | _ :: f :: _ => f
      | _ => ['0']
    let fraction := trimTrailingZeros fraction0
    let intN := natOfDigits integer
    let step : Nat × List Char :=
      if decimals = 0 then
        (if fracGeHalf fraction then intN + 1 else intN, [])
      else if fraction.length > decimals then
        let left := fraction.take (decimals - 1)
        let unit := (fraction.drop (decimals - 1)).take 1
        let right := fraction.drop decimals
        let rounded := natOfDigits unit + (if fracGeHalf right then 1 else 0)
        let fr1 :=
          if rounded > 9 then
            padStartZeros (natDigits (natOfDigits left + 1) ++ ['0']) (left.length + 1)
          else
            left ++ natDigits rounded
        let step2 : Nat × List Char :=
          if fr1.length > decimals then (intN + 1, fr1.drop 1) else (intN, fr1)
        (step2.1, step2.2.take decimals)
      else
        (intN, padEndZeros fraction decimals)
    let mag : Nat := step.1 * 10 ^ step.2.length + natOfDigits step.2
    .ok (if negative then -(mag : Int) else (mag : Int))

/-! ### The JS `Number` conversion

`ensureRedeemConfig`, `autoRedeem` and `ensureConfig` guard amounts with
`Number(s) <= 0` style tests.  `jsNumber` embeds the JS `Number(string)`
conversion on its documented grammar (whitespace trimming, optional sign,
`Infinity`, decimal literal with optional exponent, unsigned hex / octal /
binary literals); every other string converts to `NaN`, modelled as
`none`.  Comparisons against `NaN` are always false (`jsLe`, `jsLt`). -/

/-- Value of a JS `Number(string)` conversion that did not produce `NaN`:
either a finite value, represented exactly (unrounded) as
`mantissa * 10 ^ scale10`, or a signed infinity.  The source only ever
compares the conversion's result with `0`, which depends on the mantissa's
sign alone. -/
inductive JsNum where
  | fin (mantissa : Int) (scale10 : Int)
  | inf (pos : Bool)
deriving DecidableEq

/-- Digit value in an arbitrary base, for hex / octal / binary literals. -/
def digitsInBase (base : Nat) (cs : List Char) : Option Nat :=
  cs.foldlM
    (fun n c =>
      let v :=
        if c.isDigit then c.toNat - 48
        else if 97 ≤ c.toNat ∧ c.toNat ≤ 102 then c.toNat - 87
        else if 65 ≤ c.toNat ∧ c.toNat ≤ 70 then c.toNat - 55
        else 99
      if v < base then some (base * n + v) else none)
    0

/-- Split at the exponent marker `e` or `E` of a decimal literal. -/
def splitOnExp (cs : List Char) : List (List Char) :=
  splitOnChar 'e' (cs.map (fun c => if c = 'E' then 'e' else c))

/-- Parse of an unsigned decimal literal `digits [. digits] [e [sign] digits]`
into an exact `mantissa * 10 ^ scale10` pair. -/
def decLiteral (cs : List Char) : Option (Int × Int) :=
  let (mant, expPart) :=
    match splitOnExp cs with
    | [m] => (m, some (0 : Int))
    | [m, e] =>
      let (eneg, ecore) :=
        match e with
        | '-' :: rest => (true, rest)
        | '+' :: rest => (false, rest)
        | _ => (false, e)
      if ecore.isEmpty || !allDigits ecore then (m, none)
      else (m, some (if eneg then -(natOfDigits ecore : Int) else (natOfDigits ecore : Int)))
    | _ => ([], none)
  match expPart with
  | none => none
  | some ex =>
    match splitOnChar '.' mant with
    | [a] =>
      if a.isEmpty || !allDigits a then none
      else some ((natOfDigits a : Int), ex)
    | [a, b] =>
      if (a.isEmpty && b.isEmpty) || !allDigits a || !allDigits b then none
      else some ((natOfDigits a * 10 ^ b.length + natOfDigits b : Int), ex - b.length)
    | _ => none

/-- Embedding of JS `Number(string)`; `none` is `NaN`.  The finite values
are exact rationals (the engine's double rounding is not modelled; all uses
in the source only compare the result with `0`). -/
def jsNumber (s : String) : Option JsNum :=
  let t := trimChars s.toList
  if t.isEmpty then some (.fin 0 0)
  else
    let (neg, signed, core) :=
      match t with
      | '-' :: rest => (true, true, rest)
      | '+' :: rest => (false, true, rest)
      | _ => (false, false, t)
    if core = "Infinity".toList then some (.inf !neg)
    else if !signed && (charsStartWith t ['0', 'x'] || charsStartWith t ['0', 'X']) then
      (digitsInBase 16 (t.drop 2)).map (fun n => .fin (n : Int) 0)
    else if !signed && (charsStartWith t ['0', 'o'] || charsStartWith t ['0', 'O']) then
      (digitsInBase 8 (t.drop 2)).map (fun n => .fin (n : Int) 0)
    else if !signed && (charsStartWith t ['0', 'b'] || charsStartWith t ['0', 'B']) then
      (digitsInBase 2 (t.drop 2)).map (fun n => .fin (n : Int) 0)
    else
      (decLiteral core).map (fun p => .fin (if neg then -p.1 else p.1) p.2)

/-- JS comparison `Number(s) <= 0` (the only comparisons the source makes
are against `0`): false on `NaN`, and decided by the mantissa's sign on
finite values since `10 ^ scale10` is positive. -/
def jsLe (x : Option JsNum) : Bool :=
  match x with
  | none => false
  | some (.fin m _) => decide (m ≤ 0)
  | some (.inf pos) => !pos

/-- JS comparison `Number(s) < 0`: false on `NaN`. -/
def jsLt (x : Option JsNum) : Bool :=
  match x with
  | none => false
  | some (.fin m _) => decide (m < 0)
  | some (.inf pos) => !pos

/-! ### Error model

The error classes are defined in the errors module of the source (the
second document of `src/index.ts`, lines 31-58), imported elsewhere as
`from "./errors"` / `"../errors"`. -/

/-- Embedding of the errors module (`src/index.ts`, second document, lines
31-58) together with the other error shapes the core observes.  Each
class there extends `Error` and carries only `name` and `message`:
`invalidConfig` is `InvalidPermissionConfigError` (message required, line
53-58); `userRejected` is `UserRejectedError` (line 46-51; its default
message `User rejected the request.` applies when constructed without an
argument, which the modelled core never does — it always passes a
message); `missingBrowserProvider` and `missingRequestExecutionPermissions`
are the two fixed-message provider-layer classes (lines 32-44), carried
for completeness though the modelled core never constructs them;
`jsError` is a plain `new Error(msg)` raised by the engine itself
(backend HTTP failures); `external` is any error raised by an external
call (wallet, fetch, custom strategy), which may carry a numeric `code`
such as the EIP-1193 rejection code `4001`.  None of the SDK classes
defines a `code` field, so `error?.code` reads `undefined` on them. -/
inductive JsError where
  | invalidConfig (msg : String)
  | userRejected (msg : String)
  | missingBrowserProvider
  | missingRequestExecutionPermissions
  | jsError (msg : String)
  | external (code : Option Int) (msg : String)
deriving DecidableEq

/-- JS read of `error?.code`: only errors thrown by external calls carry a
code in this codebase. -/
def JsError.code : JsError → Option Int
  | .external c _ => c
  | _ => none

/-- Test for the `UserRejectedError` class. -/
def JsError.isUserRejected : JsError → Bool
  | .userRejected _ => true
  | _ => false

/-! ### Permission types and supported chains -/

/-- The four-literal union from `src/types/permission.ts` (part_002) and
`src/types/redeem.ts` (part_003). -/
inductive PermissionType where
  | nativeTokenPeriodic
  | erc20TokenPeriodic
  | nativeTokenStream
  | erc20TokenStream
deriving DecidableEq

/-- Embedding of `permissionType.includes("native")` on the four literal
strings. -/
def PermissionType.isNative : PermissionType → Bool
  | .nativeTokenPeriodic | .nativeTokenStream => true
  | _ => false

/-- Embedding of `permissionType.includes("erc20")` on the four literal
strings. -/
def PermissionType.isErc20 : PermissionType → Bool
  | .erc20TokenPeriodic | .erc20TokenStream => true
  | _ => false

/-- Embedding of `permissionType.includes("periodic")` on the four literal
strings. -/
def PermissionType.isPeriodic : PermissionType → Bool
  | .nativeTokenPeriodic | .erc20TokenPeriodic => true
  | _ => false

/-- Embedding of `permissionType.includes("stream")` on the four literal
strings. -/
def PermissionType.isStream : PermissionType → Bool
  | .nativeTokenStream | .erc20TokenStream => true
  | _ => false

/-- Chain object restricted to the fields the core reads (`id`, `name`),
from viem `Chain`. -/
structure Chain where
  id : Int
  name : String
deriving DecidableEq

/-- The viem `sepolia` chain, the default chain of part_003. -/
def sepoliaChain : Chain := { id := 11155111, name := "Sepolia" }

/-- The `SUPPORTED_CHAIN_IDS` table of `src/unnamed/part_000`, including
its duplicate entries. -/
def SUPPORTED_CHAIN_IDS : List Int :=
  [42161, 42161, 8453, 80084, 56, 5115, 1, 100, 10143, 10, 137, 250, 130,
   421614, 84532, 80085, 97, 10200, 5115, 127127, 43111, 11155420, 80002,
   11155111, 64165, 1301]

/-- Embedding of `isSupportedChain` from `src/unnamed/part_000`. -/
def isSupportedChain (chainId : Int) : Bool :=
  SUPPORTED_CHAIN_IDS.contains chainId

/-! ### Permission configuration, defaults resolver and validator
(`src/unnamed/part_003`) -/

/-- The `AdvancedPermissionParams` union of `src/types/config.ts`
(part_003), flattened: periodic-only and stream-only fields are all
optional, matching the TS interfaces where every field except the
discriminant is optional.  `permissionType` is `Option` because
`applyDefaults` explicitly guards against it being absent at runtime. -/
structure AdvancedPermissionParams where
  permissionType : Option PermissionType := none
  tokenAddress : Option String := none
  tokenDecimals : Option Nat := none
  amount : Option String := none
  periodDuration : Option Int := none
  startTime : Option Int := none
  amountPerSecond : Option String := none
  initialAmount : Option String := none
  maxAmount : Option String := none
  expiry : Option Int := none
  justification : Option String := none
  isAdjustmentAllowed : Option Bool := none
  chain : Option Chain := none
deriving DecidableEq

/-- The `DEFAULT_PERMISSION_VALUES` record of `src/utils/defaults.ts`;
`getStartTime` and `getExpiry` read the wall clock, passed in as `now`. -/
def defaultJustification : String := "Permission to execute token transfers"

/-- Embedding of `applyDefaults` from `src/unnamed/part_003` (lines
98-140).  `now` is `Math.floor(Date.now() / 1000)`: `getExpiry()` is
`now + 604800` and `getStartTime()` is `now`.  The periodic branch returns
only base plus periodic fields (stream fields are dropped), and the stream
branch symmetrically. -/
def applyDefaults (now : Int) (params : AdvancedPermissionParams) :
    Except JsError AdvancedPermissionParams :=
  match params.permissionType with
  | none => .error (.invalidConfig "permissionType is required")
  | some pt =>
    let isNative := pt.isNative
    let defaultAmount := if isNative then "0.00001" else "1"
    let base : AdvancedPermissionParams := {
      permissionType := some pt
      tokenAddress := params.tokenAddress
      tokenDecimals := some (params.tokenDecimals.getD (if isNative then 18 else 6))
      expiry := some (jsOrI params.expiry (now + 604800))
      justification := some (jsOrS params.justification defaultJustification)
      isAdjustmentAllowed := some (params.isAdjustmentAllowed.getD true)
      chain := params.chain }
    if pt.isPeriodic then
      .ok { base with
        amount := some (jsOrS params.amount defaultAmount)
        periodDuration := some (jsOrI params.periodDuration 86400)
        startTime := params.startTime }
    else if pt.isStream then
      .ok { base with
        amountPerSecond := some (jsOrS params.amountPerSecond "0.00001")
        initialAmount := some (jsOrS params.initialAmount "0.1")
        maxAmount := some (jsOrS params.maxAmount "1")
        startTime := some (jsOrI params.startTime now) }
    else
      .error (.invalidConfig "Unknown permission type")

/-- Truthiness-and-nonpositivity test `!a || Number(a) <= 0` used on
amount strings (`ensureConfig`, `ensureRedeemConfig`, `autoRedeem`). -/
def amountNonPositive (o : Option String) : Bool :=
  match o with
  | none => true
  | some s => s.toList.isEmpty || jsLe (jsNumber s)

/-- Truthiness-and-negativity test `!a || Number(a) < 0` used on
`initialAmount` in `ensureConfig`. -/
def amountNegative (o : Option String) : Bool :=
  match o with
  | none => true
  | some s => s.toList.isEmpty || jsLt (jsNumber s)

/-- Embedding of `ensureConfig` from `src/unnamed/part_003` (lines
142-194): the first failing rule raises, in source order — tokenAddress,
tokenDecimals, periodic amount, periodDuration, stream amountPerSecond,
initialAmount, maxAmount, startTime, expiry, supported chain. -/
def ensureConfig (params : AdvancedPermissionParams) : Except JsError Unit :=
  match params.permissionType with
  | none => .error (.jsError "TypeError: cannot read permissionType")
  | some pt =>
    if pt.isErc20 && !truthyS params.tokenAddress then
      .error (.invalidConfig "tokenAddress is required for ERC-20 permissions")
    else if params.tokenDecimals.isNone then
      .error (.invalidConfig "tokenDecimals is required")
    else if pt.isPeriodic && amountNonPositive params.amount then
      .error (.invalidConfig "amount must be greater than zero")
    else if pt.isPeriodic && !truthyI params.periodDuration then
      .error (.invalidConfig "periodDuration is required")
    else if pt.isStream && amountNonPositive params.amountPerSecond then
      .error (.invalidConfig "amountPerSecond must be greater than zero")
    else if pt.isStream && amountNegative params.initialAmount then
      .error (.invalidConfig "initialAmount must be zero or greater")
    else if pt.isStream && amountNonPositive params.maxAmount then
      .error (.invalidConfig "maxAmount must be greater than zero")
    else if pt.isStream && !truthyI params.startTime then
      .error (.invalidConfig "startTime is required for stream permissions")
    else if !truthyI params.expiry then
      .error (.invalidConfig "expiry is required")
    else
      let chain := params.chain.getD sepoliaChain
      if !isSupportedChain chain.id then
        let n := chain.name
        let i := chain.id
        .error (.invalidConfig s!"Chain {n} (id: {i}) is not supported for ERC-7715 Advanced Permissions. Supported chains: Ethereum, Polygon, Arbitrum, Optimism, Base, BSC, Gnosis, and their testnets.")
      else
        .ok ()

/-! ### Permission request builder (`src/unnamed/part_003`) -/

/-- The wire-format permission request built by `buildBaseRequest`,
flattening `permission.data` into the record.  Fields the source only sets
on one branch are `Option`; amounts are the integers produced by
`parseUnits`. -/
structure PermissionRequest where
  chainId : Int
  expiry : Option Int
  signerAddress : String
  permType : PermissionType
  tokenAddress : Option String
  justification : Option String
  isAdjustmentAllowed : Bool
  periodAmount : Option Int := none
  periodDuration : Option Int := none
  startTime : Option Int := none
  amountPerSecond : Option Int := none
  initialAmount : Option Int := none
  maxAmount : Option Int := none
deriving DecidableEq

/-- Embedding of `buildBaseRequest` from `src/unnamed/part_003` (lines
201-251).  Unit-parser failures propagate as thrown viem errors; an absent
amount string on the branch that reads it is the JS `TypeError` the source
would raise inside `parseUnits`. -/
def buildBaseRequest (params : AdvancedPermissionParams)
    (sessionAccountAddress : String) : Except JsError PermissionRequest :=
  match params.permissionType with
  | none => .error (.jsError "TypeError: cannot read permissionType")
  | some pt =>
    let chain := params.chain.getD sepoliaChain
    let base : PermissionRequest := {
      chainId := chain.id
      expiry := params.expiry
      signerAddress := sessionAccountAddress
      permType := pt
      tokenAddress := params.tokenAddress
      justification := params.justification
      isAdjustmentAllowed := params.isAdjustmentAllowed.getD true }
    let decimals := params.tokenDecimals.getD (if pt.isNative then 18 else 6)
    if pt.isPeriodic then
      match params.amount with
      | none => .error (.jsError "TypeError: amount is undefined")
      | some a =>
        match parseUnits a decimals with
        | .error m => .error (.jsError m)
        | .ok periodAmount =>
          .ok { base with
            periodAmount := some periodAmount
            periodDuration := params.periodDuration
            startTime := if truthyI params.startTime then params.startTime else none }
    else if pt.isStream then
      match params.amountPerSecond, params.initialAmount, params.maxAmount with
      | some aps, some ia, some ma =>
        match parseUnits aps decimals, parseUnits ia decimals, parseUnits ma decimals with
        | .ok apsU, .ok iaU, .ok maU =>
          .ok { base with
            amountPerSecond := some apsU
            initialAmount := some iaU
            maxAmount := some maU
            startTime := params.startTime }
        | .error m, _, _ => .error (.jsError m)
        | _, .error m, _ => .error (.jsError m)
        | _, _, .error m => .error (.jsError m)
      | _, _, _ => .error (.jsError "TypeError: stream amount is undefined")
    else
      .ok base

/-! ### Hook runners

The permission pipeline (`src/unnamed/part_003`, lines 196-199) and the
redeem pipeline (`src/core/redeem.ts`, lines 84-90) define the same
single-stage runner `applyHook`; `autoRedeem` (`src/core/redeem-auto.ts`,
lines 71, 84, 122) instead inlines the pattern
`await (hooks.h?.(payload) || Promise.resolve(payload))`. -/

/-- Return value of a JS hook callback: a synchronous return of a value or
of `undefined`, or a promise resolving to a value or to `undefined`. -/
inductive HookRet (α : Type) where
  | sync (r : Option α)
  | async (r : Option α)
deriving DecidableEq

/-- Embedding of `applyHook` (identical in `src/core/redeem.ts` and
`src/unnamed/part_003`): a missing hook passes the payload through, and
`Promise.resolve(hook(payload)).then(result => result ?? payload)` keeps
the payload exactly when the awaited result is `undefined`, for
synchronous and asynchronous callbacks alike. -/
def applyHook {α : Type} (hook : Option (α → HookRet α)) (payload : α) : α :=
  match hook with
  | none => payload
  | some f =>
    match f payload with
    | .sync r => r.getD payload
    | .async r => r.getD payload

/-- Embedding of the `autoRedeem` inline pattern
`await (hooks.h?.(payload) || Promise.resolve(payload))`.  A missing hook
or a synchronous `undefined` return is falsy, so `||` falls through to the
original payload; but an asynchronous callback returns a promise, which is
truthy, so the awaited payload becomes whatever the promise resolves to —
including `undefined` (`none`). -/
def autoApplyHook {α : Type} (hook : Option (α → HookRet α)) (payload : α) :
    Option α :=
  match hook with
  | none => some payload
  | some f =>
    match f payload with
    | .sync none => some payload
    | .sync (some v) => some v
    | .async r => r

/-! ### Redeem data model (`src/core/redeem.ts`, `src/core/redeem-auto.ts`,
`src/utils/redeem-call-data.ts`) -/

/-- Data fields of `RedeemPermissionOptions` (`src/core/redeem.ts`, lines
20-47).  The function-valued members (`hooks`, `customRedeem`) are passed
to the model separately as behaviors. -/
structure RedeemPermissionOptions where
  permissionsContext : Option String := none
  recipient : Option String := none
  amount : Option String := none
  permissionType : Option PermissionType := none
  tokenAddress : Option String := none
  tokenDecimals : Option Nat := none
  chainId : Option Int := none
  sessionAccountAddress : Option String := none
  backendEndpoint : Option String := none
deriving DecidableEq

/-- The redeem request object assembled by `redeemPermission` (lines
99-110): the four required fields are copied unconditionally, the optional
ones only when truthy (`tokenDecimals`: only when not `undefined`). -/
structure RedeemRequest where
  permissionsContext : Option String
  recipient : Option String
  amount : Option String
  permissionType : Option PermissionType
  tokenAddress : Option String
  tokenDecimals : Option Nat
  sessionAccountAddress : Option String
  chainId : Option Int
deriving DecidableEq

/-- Embedding of the request assembly in `redeemPermission` (lines
99-110). -/
def buildRedeemRequest (o : RedeemPermissionOptions) : RedeemRequest := {
  permissionsContext := o.permissionsContext
  recipient := o.recipient
  amount := o.amount
  permissionType := o.permissionType
  tokenAddress := if truthyS o.tokenAddress then o.tokenAddress else none
  tokenDecimals := o.tokenDecimals
  sessionAccountAddress :=
    if truthyS o.sessionAccountAddress then o.sessionAccountAddress else none
  chainId := if truthyI o.chainId then o.chainId else none }

/-- The redeem data object assembled by `autoRedeem` (lines 59-68). -/
structure AutoData where
  permissionsContext : Option String := none
  recipient : Option String := none
  amount : Option String := none
  permissionType : Option PermissionType := none
  tokenAddress : Option String := none
  tokenDecimals : Option Nat := none
deriving DecidableEq

/-- The JS empty object `{}` produced by spreading `undefined`: every
field absent. -/
def noneAutoData : AutoData := {}

/-- The argument tuple of the encoded `redeemPermission(bytes, address,
uint256, string, address, uint8)` call.  `encodeFunctionData` (viem) is
modelled as the tuple of its arguments; byte-level ABI encoding is an
external concern the claims do not touch.  The optional `abi` override of
`buildRedeemCallData` is constrained by its TS type to the same signature
and does not change the argument tuple, so it is not modelled. -/
structure EncodedCall where
  permissionsContext : Option String
  recipient : Option String
  amount : Int
  permissionType : Option PermissionType
  tokenAddress : String
  tokenDecimals : Nat
deriving DecidableEq

/-- The `{to, data, value}` transaction request returned by
`buildRedeemCallData` (`to` is spelled `toAddr`, `to` being reserved in
Lean). -/
structure TxCall where
  toAddr : String
  data : EncodedCall
  value : Int
deriving DecidableEq

/-- The viem `zeroAddress` constant. -/
def zeroAddress : String := "0x0000000000000000000000000000000000000000"

/-- Data fields of `BuildRedeemCallDataOptions`
(`src/utils/redeem-call-data.ts`, lines 24-28): the redeem options plus the
delegation-manager target and the optional native-value override. -/
structure BuildRedeemCallDataOptions where
  permissionsContext : Option String := none
  recipient : Option String := none
  amount : Option String := none
  permissionType : Option PermissionType := none
  tokenAddress : Option String := none
  tokenDecimals : Option Nat := none
  delegationManager : Option String := none
  valueWei : Option Int := none
deriving DecidableEq

/-- Embedding of `buildRedeemCallData` from `src/utils/redeem-call-data.ts`
(lines 36-73).  Note the source treats exactly `erc20-token-periodic` as
ERC-20 (`options.permissionType === "erc20-token-periodic"`); every other
permission type, including `erc20-token-stream`, takes the native branch
with 18 decimals and the zero token address. -/
def buildRedeemCallData (o : BuildRedeemCallDataOptions) : Except JsError TxCall :=
  match o.delegationManager with
  | none =>
    .error (.invalidConfig "delegationManager address is required to build call data")
  | some dm =>
    if !strStartsWith dm "0x" then
      .error (.invalidConfig "delegationManager address is required to build call data")
    else
      let isErc20 := o.permissionType = some .erc20TokenPeriodic
      let tokenDecimals := if isErc20 then o.tokenDecimals.getD 6 else 18
      let tokenAddress := if isErc20 then jsOrS o.tokenAddress zeroAddress else zeroAddress
      if isErc20 && !truthyS o.tokenAddress then
        .error (.invalidConfig "tokenAddress is required to build ERC-20 redeem call data")
      else
        match o.amount with
        | none => .error (.jsError "TypeError: amount is undefined")
        | some a =>
          match parseUnits a tokenDecimals with
          | .error m => .error (.jsError m)
          | .ok amountParsed =>
            .ok {
              toAddr := dm
              data := {
                permissionsContext := o.permissionsContext
                recipient := o.recipient
                amount := amountParsed
                permissionType := o.permissionType
                tokenAddress := tokenAddress
                tokenDecimals := tokenDecimals }
              value := o.valueWei.getD 0 }

/-- The `RedeemResult` payload carried by a result's `redeemRequest` field,
which is `any` in the source: the prepared request of `redeemPermission`,
the transaction request of `autoRedeem`'s wallet path, or the redeem data
of `autoRedeem`'s fallback. -/
inductive RedeemReqVal where
  | perm (r : RedeemRequest)
  | tx (t : TxCall)
  | auto (d : AutoData)
deriving DecidableEq

/-- The `RedeemResult` interface of `src/types/redeem.ts` (part_003). -/
structure RedeemResult where
  success : Bool
  message : Option String := none
  redeemRequest : Option RedeemReqVal := none
  transactionHash : Option String := none
  recipient : Option String := none
  amount : Option String := none
  permissionType : Option PermissionType := none
  tokenAddress : Option String := none
  tokenDecimals : Option Int := none
deriving DecidableEq

/-! ### Redeem validation (`src/core/redeem.ts`, lines 49-82 and
`src/core/redeem-auto.ts`, lines 43-51) -/

/-- Embedding of `ensureRedeemConfig` (`src/core/redeem.ts`, lines 49-82).
The `!options` guard cannot fire in the model (the record is always
present).  Note the ERC-20 field checks apply only to the literal
`erc20-token-periodic`. -/
def ensureRedeemConfig (o : RedeemPermissionOptions) : Except JsError Unit :=
  if !truthyS o.permissionsContext then
    .error (.invalidConfig "permissionsContext is required")
  else if !(truthyS o.recipient && strStartsWith (o.recipient.getD "") "0x") then
    .error (.invalidConfig "recipient must be a valid Ethereum address")
  else if amountNonPositive o.amount then
    .error (.invalidConfig "amount must be greater than zero")
  else if o.permissionType.isNone then
    .error (.invalidConfig "permissionType is required")
  else if o.permissionType = some .erc20TokenPeriodic && !truthyS o.tokenAddress then
    .error (.invalidConfig "tokenAddress is required for erc20-token-periodic")
  else if o.permissionType = some .erc20TokenPeriodic && o.tokenDecimals.isNone then
    .error (.invalidConfig "tokenDecimals is required for erc20-token-periodic")
  else if truthyI o.chainId && !isSupportedChain (o.chainId.getD 0) then
    let i := o.chainId.getD 0
    .error (.invalidConfig s!"Chain ID {i} is not supported for ERC-7715 Advanced Permissions")
  else
    .ok ()

/-- Embedding of the validation prologue of `autoRedeem`
(`src/core/redeem-auto.ts`, lines 43-51): only `permissionsContext`,
`recipient` and `amount` are validated; token fields are never checked. -/
structure AutoRedeemOptions where
  permissionsContext : Option String := none
  recipient : Option String := none
  amount : Option String := none
  permissionType : Option PermissionType := none
  tokenAddress : Option String := none
  tokenDecimals : Option Nat := none
  hasWalletClient : Bool := false
  backendEndpoint : Option String := none
  delegationManager : Option String := none
  valueWei : Option Int := none
deriving DecidableEq

/-- Embedding of the three `autoRedeem` validation checks (lines 43-51). -/
def ensureAutoRedeemConfig (o : AutoRedeemOptions) : Except JsError Unit :=
  if !truthyS o.permissionsContext then
    .error (.invalidConfig "permissionsContext is required")
  else if !(truthyS o.recipient && strStartsWith (o.recipient.getD "") "0x") then
    .error (.invalidConfig "recipient must be a valid Ethereum address")
  else if amountNonPositive o.amount then
    .error (.invalidConfig "amount must be greater than zero")
  else
    .ok ()

/-! ### Backend fetch model

Both orchestrators `POST` the request body with `fetch` and interpret the
response identically up to the extracted error fields.  The environment
supplies the single observable outcome of that call. -/

/-- Outcome of the one `fetch` call an orchestrator run performs:
a 2xx response carrying a `RedeemResult` JSON body, a non-2xx response
whose JSON body parsed (with whatever of `error` / `message` / `details`
fields it had), a non-2xx response whose body was not JSON, or a network
error thrown by `fetch` itself. -/
inductive FetchOutcome where
  | ok (r : RedeemResult)
  | httpErrorJson (errorF messageF detailsF : Option String) (status : Int) (statusText : String)
  | httpErrorNoJson (status : Int) (statusText : String)
  | networkError (e : JsError)

/-- Backend-call interpretation of `redeemPermission` (lines 123-146):
message fallback chain `error.error || error.message || error.details ||
"Failed to redeem permission"`, or `HTTP status: statusText` when the body
is not JSON. -/
def redeemBackendCall (f : FetchOutcome) : Except JsError RedeemResult :=
  match f with
  | .ok r => .ok r
  | .httpErrorJson e m d _ _ =>
    .error (.jsError (jsOrS e (jsOrS m (jsOrS d "Failed to redeem permission"))))
  | .httpErrorNoJson st stxt =>
    .error (.jsError s!"HTTP {st}: {stxt}")
  | .networkError e => .error e

/-- Backend-call interpretation of `autoRedeem` (lines 86-107): fallback
chain `error.error || error.message || "Failed to redeem permission"` (no
`details`), or `HTTP status` (no status text) when the body is not
JSON. -/
def autoBackendCall (f : FetchOutcome) : Except JsError RedeemResult :=
  match f with
  | .ok r => .ok r
  | .httpErrorJson e m _ _ _ =>
    .error (.jsError (jsOrS e (jsOrS m "Failed to redeem permission")))
  | .httpErrorNoJson st _ =>
    .error (.jsError s!"HTTP {st}")
  | .networkError e => .error e

/-! ### The `redeemPermission` orchestrator (`src/core/redeem.ts`, lines
92-166) -/

/-- Hook record of `RedeemHooks` (part_003): payload-transforming stages
are optional callbacks; `afterRequest` and `onError` return `void`, so
only their registration is observable and they are modelled by the flags
recorded in the event log. -/
structure RedeemHooks where
  beforeBuild : Option (RedeemRequest → HookRet RedeemRequest) := none
  beforeRequest : Option (RedeemRequest → HookRet RedeemRequest) := none
  afterRequest : Bool := false
  onError : Bool := false

/-- Environment of a `redeemPermission` run: the caller-supplied custom
strategy (a field of the options object in the source, hoisted here
because it is a function) and the behavior of the single backend `fetch`
call. -/
structure RedeemEnv where
  customRedeem : Option (RedeemPermissionOptions → Except JsError RedeemResult) := none
  fetch : FetchOutcome := .networkError (.jsError "fetch failed")

/-- Observable callback invocations of a `redeemPermission` run, in
order. -/
inductive REvent where
  | customCalled (o : RedeemPermissionOptions)
  | afterRequestCalled (r : RedeemResult)
  | onErrorCalled (e : JsError)
deriving DecidableEq

/-- Registration test used to count error-hook invocations. -/
def REvent.isOnError : REvent → Bool
  | .onErrorCalled _ => true
  | _ => false

/-- Event emitted by `await hooks.afterRequest?.(result)`. -/
def afterRequestEvents (hooks : RedeemHooks) (r : RedeemResult) : List REvent :=
  if hooks.afterRequest then [.afterRequestCalled r] else []

/-- Event emitted by `await hooks.onError?.(e)`. -/
def onErrorEvents (registered : Bool) (e : JsError) : List REvent :=
  if registered then [.onErrorCalled e] else []

/-- Body of the `try` block of `redeemPermission` (lines 97-156): build
the request, run `beforeBuild` then `beforeRequest`, dispatch to the
custom strategy if supplied (called with the ORIGINAL `options` object,
line 117), else to the backend if an endpoint is supplied, else return the
prepared-but-unsubmitted success result. -/
def redeemTryBody (o : RedeemPermissionOptions) (env : RedeemEnv)
    (hooks : RedeemHooks) : List REvent × Except JsError RedeemResult :=
  let req := applyHook hooks.beforeRequest (applyHook hooks.beforeBuild (buildRedeemRequest o))
  match env.customRedeem with
  | some f =>
    match f o with
    | .ok r => ([.customCalled o] ++ afterRequestEvents hooks r, .ok r)
    | .error e => ([.customCalled o], .error e)
  | none =>
    if truthyS o.backendEndpoint then
      match redeemBackendCall env.fetch with
      | .ok r => (afterRequestEvents hooks r, .ok r)
      | .error e => ([], .error e)
    else
      let r : RedeemResult := {
        success := true
        redeemRequest := some (.perm req)
        message := some "Redeem request prepared. Use customRedeem or backendEndpoint to submit." }
      (afterRequestEvents hooks r, .ok r)

/-- Embedding of `redeemPermission` (lines 92-166): validation happens
before the `try` block (so a configuration error produces no events), and
the `catch` block wraps errors carrying `code === 4001` into
`UserRejectedError` before invoking `onError` and rethrowing. -/
def redeemPermissionModel (o : RedeemPermissionOptions) (env : RedeemEnv)
    (hooks : RedeemHooks) : List REvent × Except JsError RedeemResult :=
  match ensureRedeemConfig o with
  | .error e => ([], .error e)
  | .ok _ =>
    let body := redeemTryBody o env hooks
    match body.2 with
    | .ok r => (body.1, .ok r)
    | .error e =>
      if e.code = some 4001 then
        let w := JsError.userRejected "User rejected the redemption."
        (body.1 ++ onErrorEvents hooks.onError w, .error w)
      else
        (body.1 ++ onErrorEvents hooks.onError e, .error e)

/-- Original-options arguments of the custom-strategy invocations in an
event log. -/
def customArgs (evs : List REvent) : List RedeemPermissionOptions :=
  evs.filterMap (fun e => match e with
    | .customCalled o => some o
    | _ => none)

/-! ### The `autoRedeem` orchestrator (`src/core/redeem-auto.ts`, lines
41-151) -/

/-- The backend body `{...redeemData, timestamp: Date.now()}` of
`autoRedeem` (lines 78-81). -/
structure BackendBody where
  data : AutoData
  timestamp : Int
deriving DecidableEq

/-- Hook record of `autoRedeem` (lines 33-38).  The single `beforeSubmit`
hook receives the backend body on the backend path and the transaction
request on the wallet path; the model splits it by payload shape. -/
structure AutoHooks where
  beforeBuild : Option (AutoData → HookRet AutoData) := none
  beforeSubmitBody : Option (BackendBody → HookRet BackendBody) := none
  beforeSubmitTx : Option (TxCall → HookRet TxCall) := none
  afterSubmit : Bool := false
  onError : Bool := false

/-- Environment of an `autoRedeem` run: the backend `fetch` behavior and
the wallet client's `sendTransaction`, returning a transaction hash or
throwing. -/
structure AutoEnv where
  fetch : FetchOutcome := .networkError (.jsError "fetch failed")
  walletSend : TxCall → Except JsError String := fun _ => .error (.jsError "no wallet")

/-- Observable callback invocations of an `autoRedeem` run, in order. -/
inductive AutoEvent where
  | afterSubmitCalled (r : RedeemResult)
  | onErrorCalled (e : JsError)
deriving DecidableEq

/-- Registration test used to count error-hook invocations. -/
def AutoEvent.isOnError : AutoEvent → Bool
  | .onErrorCalled _ => true
  | _ => false

/-- Event emitted by `await hooks.afterSubmit?.(result)`. -/
def afterSubmitEvents (hooks : AutoHooks) (r : RedeemResult) : List AutoEvent :=
  if hooks.afterSubmit then [.afterSubmitCalled r] else []

/-- Event emitted by `await hooks.onError?.(e)` in `autoRedeem`. -/
def autoOnErrorEvents (registered : Bool) (e : JsError) : List AutoEvent :=
  if registered then [.onErrorCalled e] else []

/-- Spread of `autoRedeem`'s options into `BuildRedeemCallDataOptions`
(line 116-120): all redeem fields are copied, `permissionType` is the
resolved one and `delegationManager` the caller's. -/
def autoToBuildOpts (o : AutoRedeemOptions) (pt : PermissionType) :
    BuildRedeemCallDataOptions := {
  permissionsContext := o.permissionsContext
  recipient := o.recipient
  amount := o.amount
  permissionType := some pt
  tokenAddress := o.tokenAddress
  tokenDecimals := o.tokenDecimals
  delegationManager := o.delegationManager
  valueWei := o.valueWei }

/-- Body of the `try` block of `autoRedeem` (lines 55-146): resolve the
permission type (default `native-token-periodic`), assemble the redeem
data, run `beforeBuild` through the truthiness-based combinator, then
dispatch: backend when an endpoint is supplied or no wallet client exists,
else the wallet path (requiring `delegationManager`, building call data
from the ORIGINAL options, running `beforeSubmit`, sending the
transaction).  The final fallback return is unreachable but kept for
fidelity.  `now` is `Date.now()`. -/
def autoTryBody (o : AutoRedeemOptions) (env : AutoEnv) (hooks : AutoHooks)
    (now : Int) : List AutoEvent × Except JsError RedeemResult :=
  let pt := o.permissionType.getD .nativeTokenPeriodic
  let redeemData0 : AutoData := {
    permissionsContext := o.permissionsContext
    recipient := o.recipient
    amount := o.amount
    permissionType := some pt
    tokenAddress := if truthyS o.tokenAddress then o.tokenAddress else none
    tokenDecimals := o.tokenDecimals }
  let redeemData := autoApplyHook hooks.beforeBuild redeemData0
  if truthyS o.backendEndpoint || !o.hasWalletClient then
    let txData : BackendBody := { data := redeemData.getD noneAutoData, timestamp := now }
    let _finalData := autoApplyHook hooks.beforeSubmitBody txData
    match autoBackendCall env.fetch with
    | .ok r => (afterSubmitEvents hooks r, .ok r)
    | .error e => ([], .error e)
  else if o.hasWalletClient then
    if !truthyS o.delegationManager then
      ([], .error (.invalidConfig "delegationManager is required for wallet-based redeem"))
    else
      match buildRedeemCallData (autoToBuildOpts o pt) with
      | .error e => ([], .error e)
      | .ok tx =>
        match autoApplyHook hooks.beforeSubmitTx tx with
        | none => ([], .error (.jsError "TypeError: txRequest is undefined"))
        | some txReq =>
          match env.walletSend txReq with
          | .error e => ([], .error e)
          | .ok hash =>
            let r : RedeemResult := {
              success := true
              redeemRequest := some (.tx txReq)
              transactionHash := some hash
              message := some "Redemption transaction sent" }
            (afterSubmitEvents hooks r, .ok r)
  else
    let r : RedeemResult := {
      success := true
      redeemRequest := (redeemData.map .auto)
      message := some "Redeem request prepared" }
    ([], .ok r)

/-- Embedding of `autoRedeem` (lines 41-151): validation happens before
the `try` block, and the `catch` block (lines 147-150) invokes `onError`
and rethrows the ORIGINAL error — unlike `redeemPermission` it performs no
`code === 4001` wrapping. -/
def autoRedeemModel (o : AutoRedeemOptions) (env : AutoEnv) (hooks : AutoHooks)
    (now : Int) : List AutoEvent × Except JsError RedeemResult :=
  match ensureAutoRedeemConfig o with
  | .error e => ([], .error e)
  | .ok _ =>
    let body := autoTryBody o env hooks now
    match body.2 with
    | .ok r => (body.1, .ok r)
    | .error e => (body.1 ++ autoOnErrorEvents hooks.onError e, .error e)

/-! ### Helper lemmas -/

theorem customArgs_append (a b : List REvent) :
    customArgs (a ++ b) = customArgs a ++ customArgs b := by
  simp [customArgs]

theorem customArgs_afterRequestEvents (hooks : RedeemHooks) (r : RedeemResult) :
    customArgs (afterRequestEvents hooks r) = [] := by
  unfold afterRequestEvents
  by_cases h : hooks.afterRequest <;> simp [h, customArgs]

theorem customArgs_onErrorEvents (b : Bool) (e : JsError) :
    customArgs (onErrorEvents b e) = [] := by
  unfold onErrorEvents
  by_cases h : b <;> simp [h, customArgs]

theorem customArgs_nil : customArgs [] = [] := rfl

theorem customArgs_cons_custom (o : RedeemPermissionOptions) (evs : List REvent) :
    customArgs (.customCalled o :: evs) = o :: customArgs evs := by
  simp [customArgs]

theorem filter_onErrorEvents (b : Bool) (e : JsError) :
    (onErrorEvents b e).filter REvent.isOnError = onErrorEvents b e := by
  unfold onErrorEvents
  by_cases h : b <;> simp [h, REvent.isOnError]

theorem filter_afterRequestEvents (hooks : RedeemHooks) (r : RedeemResult) :
    (afterRequestEvents hooks r).filter REvent.isOnError = [] := by
  unfold afterRequestEvents
  by_cases h : hooks.afterRequest <;> simp [h, REvent.isOnError]

theorem autoFilter_afterSubmitEvents (hooks : AutoHooks) (r : RedeemResult) :
    (afterSubmitEvents hooks r).filter AutoEvent.isOnError = [] := by
  unfold afterSubmitEvents
  by_cases h : hooks.afterSubmit <;> simp [h, AutoEvent.isOnError]

/-! ### Claim C1 — excess-precision amounts -/

/-- Call-data options with an amount of seven fractional digits at
precision 6. -/
def c1CallOpts : BuildRedeemCallDataOptions := {
  permissionsContext := some "0xctx"
  recipient := some "0xrec"
  amount := some "1.0000001"
  permissionType := some .erc20TokenPeriodic
  tokenAddress := some "0xToken"
  tokenDecimals := some 6
  delegationManager := some "0xDM" }

/-- Permission params with an amount of seven fractional digits at
precision 6. -/
def c1Params : AdvancedPermissionParams := {
  permissionType := some .erc20TokenPeriodic
  tokenAddress := some "0xToken"
  tokenDecimals := some 6
  amount := some "1.0000001"
  periodDuration := some 86400
  expiry := some 999999 }

/-- C1 counterexample: converting the amount string `"1.0000001"` at
effective precision 6 while building redeem call data does NOT raise a
ConfigurationError — `buildRedeemCallData` succeeds and the encoded amount
is the silently rounded `1000000`. -/
theorem c1_call_data_rounds_counterexample :
    buildRedeemCallData c1CallOpts = .ok {
      toAddr := "0xDM"
      data := {
        permissionsContext := some "0xctx"
        recipient := some "0xrec"
        amount := 1000000
        permissionType := some .erc20TokenPeriodic
        tokenAddress := "0xToken"
        tokenDecimals := 6 }
      value := 0 } := by
  decide

/-- C1 (amended): for a decimal amount string with more fractional digits
than the effective precision allows, neither the permission request
builder nor the redeem call-data builder raises a ConfigurationError: the
underlying unit parser silently rounds to the nearest representable unit,
so `"1.0000001"` at precision 6 converts to `1000000` in both paths. -/
theorem c1_excess_precision_rounds :
    parseUnits "1.0000001" 6 = .ok 1000000
    ∧ (buildBaseRequest c1Params "0xSession").map (fun r => r.periodAmount) = .ok (some 1000000)
    ∧ (buildRedeemCallData c1CallOpts).map (fun t => t.data.amount) = .ok 1000000 := by
  refine ⟨by decide, by decide, by decide⟩

/-! ### Claim C2 — token-field validation coverage -/

/-- Redeem options of the fungible-token type `erc20-token-stream` with
both `tokenAddress` and `tokenDecimals` missing. -/
def c2StreamOpts : RedeemPermissionOptions := {
  permissionsContext := some "0xctx"
  recipient := some "0xrec"
  amount := some "1"
  permissionType := some .erc20TokenStream }

/-- Auto-redeem options of the fungible-token type `erc20-token-periodic`
with both `tokenAddress` and `tokenDecimals` missing. -/
def c2AutoOpts : AutoRedeemOptions := {
  permissionsContext := some "0xctx"
  recipient := some "0xrec"
  amount := some "1"
  permissionType := some .erc20TokenPeriodic }

/-- C2 counterexample: a redemption of type `erc20-token-stream` with
`tokenAddress` and `tokenDecimals` both missing passes
`ensureRedeemConfig` without any ConfigurationError, and `autoRedeem`'s
validation accepts even an `erc20-token-periodic` redemption missing
both. -/
theorem c2_stream_unchecked_counterexample :
    ensureRedeemConfig c2StreamOpts = .ok ()
    ∧ ensureAutoRedeemConfig c2AutoOpts = .ok () := by
  refine ⟨by decide, by decide⟩

/-- Bundle of the redeem checks that precede the token-field checks in
`ensureRedeemConfig`: context present, recipient well-formed, amount
positive. -/
def redeemBasicsOk (o : RedeemPermissionOptions) : Prop :=
  truthyS o.permissionsContext = true
  ∧ (truthyS o.recipient && strStartsWith (o.recipient.getD "") "0x") = true
  ∧ amountNonPositive o.amount = false

instance (o : RedeemPermissionOptions) : Decidable (redeemBasicsOk o) := by
  unfold redeemBasicsOk
  infer_instance

/-- C2 (amended): the missing-token-field ConfigurationError is raised
before any strategy is dispatched only by `redeemPermission` and only for
the permission type `erc20-token-periodic` — first for a missing
`tokenAddress`, then for a missing `tokenDecimals`; `erc20-token-stream`
redemptions are not subject to these checks (counterexample above), and
`autoRedeem` never checks token fields. -/
theorem c2_token_checks_only_periodic (o : RedeemPermissionOptions)
    (env : RedeemEnv) (hooks : RedeemHooks) (hb : redeemBasicsOk o)
    (hpt : o.permissionType = some .erc20TokenPeriodic) :
    (truthyS o.tokenAddress = false →
      redeemPermissionModel o env hooks =
        ([], .error (.invalidConfig "tokenAddress is required for erc20-token-periodic")))
    ∧ (truthyS o.tokenAddress = true → o.tokenDecimals = none →
      redeemPermissionModel o env hooks =
        ([], .error (.invalidConfig "tokenDecimals is required for erc20-token-periodic"))) := by
  obtain ⟨h1, h2, h3⟩ := hb
  constructor
  · intro hta
    simp [redeemPermissionModel, ensureRedeemConfig, h1, h2, h3, hpt, hta]
  · intro hta htd
    simp [redeemPermissionModel, ensureRedeemConfig, h1, h2, h3, hpt, hta, htd]

/-- Witness for C2 (amended) at a concrete `erc20-token-periodic` option
record missing its token address. -/
theorem c2_token_checks_only_periodic_witness :
    redeemPermissionModel {
      permissionsContext := some "0xctx"
      recipient := some "0xrec"
      amount := some "2"
      permissionType := some .erc20TokenPeriodic } {} {} =
    ([], .error (.invalidConfig "tokenAddress is required for erc20-token-periodic")) :=
  (c2_token_checks_only_periodic _ {} {} (by decide) (by decide)).1 (by decide)

/-! ### Claim C3 — stream maxAmount versus initialAmount -/

/-- Stream configuration whose `initialAmount` exceeds its `maxAmount`. -/
def c3Params : AdvancedPermissionParams := {
  permissionType := some .erc20TokenStream
  tokenAddress := some "0xT"
  tokenDecimals := some 6
  amountPerSecond := some "1"
  initialAmount := some "5"
  maxAmount := some "1"
  startTime := some 1000
  expiry := some 99999 }

/-- The resolved form of `c3Params` (defaults applied at `now = 1000`). -/
def c3Resolved : AdvancedPermissionParams := {
  permissionType := some .erc20TokenStream
  tokenAddress := some "0xT"
  tokenDecimals := some 6
  amountPerSecond := some "1"
  initialAmount := some "5"
  maxAmount := some "1"
  startTime := some 1000
  expiry := some 99999
  justification := some defaultJustification
  isAdjustmentAllowed := some true }

/-- C3 counterexample: the stream configuration with `initialAmount "5"`
and `maxAmount "1"` passes defaults resolution and validation, yet its
`maxAmount` in integer units (1000000 at 6 decimals) is strictly BELOW its
`initialAmount` in integer units (5000000) — the builder emits exactly
those inverted units. -/
theorem c3_max_below_initial_counterexample :
    applyDefaults 1000 c3Params = .ok c3Resolved
    ∧ ensureConfig c3Resolved = .ok ()
    ∧ (buildBaseRequest c3Resolved "0xSess").map (fun r => (r.maxAmount, r.initialAmount)) =
        .ok (some 1000000, some 5000000)
    ∧ (1000000 : Int) < 5000000 := by
  refine ⟨by decide, by decide, by decide, by decide⟩

/-- C3 (amended): the validator does not enforce
`maxAmount_units ≥ initialAmount_units` (counterexample above); the
inequality does hold whenever `initialAmount`, `maxAmount` and
`tokenDecimals` are all left to their defaults — the resolver then fills
`"0.1"` and `"1"` at 18 (native) or 6 (token) decimals, whose unit values
satisfy the bound. -/
theorem c3_default_stream_max_ge_initial (params : AdvancedPermissionParams)
    (now : Int) (pt : PermissionType) (hpt : params.permissionType = some pt)
    (hs : pt.isStream = true) (hia : params.initialAmount = none)
    (hma : params.maxAmount = none) (htd : params.tokenDecimals = none) :
    ∃ mi ii,
      (applyDefaults now params).map
        (fun r => (parseUnits (jsOrS r.maxAmount "") (r.tokenDecimals.getD 0),
                   parseUnits (jsOrS r.initialAmount "") (r.tokenDecimals.getD 0))) =
        .ok (.ok mi, .ok ii)
      ∧ ii ≤ mi := by
  cases pt
  · exact absurd hs (by decide)
  · exact absurd hs (by decide)
  · refine ⟨1000000000000000000, 100000000000000000, ?_, by decide⟩
    simp [applyDefaults, hpt, hia, hma, htd, PermissionType.isNative,
      PermissionType.isPeriodic, PermissionType.isStream, jsOrS, Except.map]
    decide
  · refine ⟨1000000, 100000, ?_, by decide⟩
    simp [applyDefaults, hpt, hia, hma, htd, PermissionType.isNative,
      PermissionType.isPeriodic, PermissionType.isStream, jsOrS, Except.map]
    decide

/-- Witness for C3 (amended) at a concrete token-stream configuration with
defaulted amounts. -/
theorem c3_default_stream_max_ge_initial_witness :
    ∃ mi ii,
      (applyDefaults 500 {
          permissionType := some PermissionType.erc20TokenStream
          tokenAddress := some "0xT"
          expiry := some 7777 }).map
        (fun r => (parseUnits (jsOrS r.maxAmount "") (r.tokenDecimals.getD 0),
                   parseUnits (jsOrS r.initialAmount "") (r.tokenDecimals.getD 0))) =
        .ok (.ok mi, .ok ii)
      ∧ ii ≤ mi :=
  c3_default_stream_max_ge_initial _ 500 .erc20TokenStream rfl (by decide) rfl rfl rfl

/-! ### Claim C6 — validator rule order -/

/-- C6: for every token-periodic configuration missing both `tokenAddress`
and `periodDuration`, the validator reports the `tokenAddress` rule — the
first in the fixed order — and never the `periodDuration` rule. -/
theorem c6_token_address_reported_first (params : AdvancedPermissionParams)
    (hpt : params.permissionType = some .erc20TokenPeriodic)
    (hta : truthyS params.tokenAddress = false)
    (_hpd : params.periodDuration = none) :
    ensureConfig params = .error (.invalidConfig "tokenAddress is required for ERC-20 permissions") := by
  simp [ensureConfig, hpt, hta, PermissionType.isErc20]

/-- Witness for C6 at a concrete configuration missing both fields. -/
theorem c6_token_address_reported_first_witness :
    ensureConfig {
      permissionType := some PermissionType.erc20TokenPeriodic
      tokenDecimals := some 6
      amount := some "1"
      expiry := some 999 } =
    .error (.invalidConfig "tokenAddress is required for ERC-20 permissions") :=
  c6_token_address_reported_first _ rfl (by decide) rfl

/-! ### Claim C4 — undefined hook returns -/

/-- Concrete payload for the C4 counterexample. -/
def c4Data : AutoData := {
  permissionsContext := some "0xctx"
  recipient := some "0xrec"
  amount := some "1"
  permissionType := some .nativeTokenPeriodic }

/-- C4 counterexample: in the `autoRedeem` hook pattern, an ASYNCHRONOUS
callback that resolves to `undefined` does not preserve the payload — the
promise itself is truthy, so `||` never falls back, and the awaited
payload becomes `undefined` (`none`), not the previous payload. -/
theorem c4_async_undefined_clears_counterexample :
    autoApplyHook (some (fun _ => HookRet.async none)) c4Data = none
    ∧ autoApplyHook (some (fun _ => HookRet.async none)) c4Data ≠ some c4Data := by
  refine ⟨by decide, by decide⟩

/-- C4 (amended): in the `applyHook` runner shared by the permission
pipeline and `redeemPermission`, a callback returning `undefined` —
synchronously or asynchronously — leaves the payload unchanged, and a
defined return value replaces it; in `autoRedeem`'s inline hook pattern
this holds for synchronous callbacks (undefined preserves, defined
replaces), but an asynchronous callback resolving to `undefined` replaces
the payload with `undefined` instead of preserving it. -/
theorem c4_undefined_preserves_payload (α : Type) (payload : α)
    (f : α → HookRet α) :
    (f payload = .sync none → applyHook (some f) payload = payload)
    ∧ (f payload = .async none → applyHook (some f) payload = payload)
    ∧ (∀ v, f payload = .sync (some v) → applyHook (some f) payload = v)
    ∧ (∀ v, f payload = .async (some v) → applyHook (some f) payload = v)
    ∧ (f payload = .sync none → autoApplyHook (some f) payload = some payload)
    ∧ (∀ v, f payload = .sync (some v) → autoApplyHook (some f) payload = some v)
    ∧ (f payload = .async none → autoApplyHook (some f) payload = none) := by
  refine ⟨?_, ?_, ?_, ?_, ?_, ?_, ?_⟩ <;>
    first
      | (intro h; simp [applyHook, autoApplyHook, h])
      | (intro v h; simp [applyHook, autoApplyHook, h])

/-- Witness for C4 (amended): a concrete synchronous-undefined callback
preserves a concrete payload through `applyHook`. -/
theorem c4_undefined_preserves_payload_witness :
    applyHook (some (fun _ : Nat => HookRet.sync none)) 7 = 7 :=
  (c4_undefined_preserves_payload Nat 7 (fun _ => HookRet.sync none)).1 rfl

/-! ### Claim C5 — rejection code 4001 -/

/-- Auto-redeem options that steer execution to the wallet path. -/
def c5AutoOpts : AutoRedeemOptions := {
  permissionsContext := some "0xctx"
  recipient := some "0xrec"
  amount := some "1"
  hasWalletClient := true
  delegationManager := some "0xDM" }

/-- Wallet environment whose `sendTransaction` rejects with the EIP-1193
user-rejection error. -/
def c5Env : AutoEnv := {
  walletSend := fun _ => .error (.external (some 4001) "denied") }

/-- Hook record registering only an error hook. -/
def c5Hooks : AutoHooks := { onError := true }

/-- C5 counterexample: when `autoRedeem`'s wallet strategy raises an error
carrying code 4001, the error that propagates is the ORIGINAL external
error, not a UserRejectionError — `autoRedeem`'s catch block performs no
4001 wrapping (the `onError` hook does fire exactly once). -/
theorem c5_auto_no_wrap_counterexample :
    autoRedeemModel c5AutoOpts c5Env c5Hooks 1700 =
      ([.onErrorCalled (.external (some 4001) "denied")],
        .error (.external (some 4001) "denied"))
    ∧ (JsError.external (some 4001) "denied").isUserRejected = false := by
  refine ⟨by decide, by decide⟩

/-- C5 (amended): in `redeemPermission`, a strategy error carrying code
4001 propagates as the UserRejectionError with the stable message
`User rejected the redemption.` and the registered `onError` hook fires
exactly once, with that wrapped error, before propagation; in `autoRedeem`
the same error propagates UNWRAPPED — `onError` still fires exactly once,
but with the original error, and no UserRejectionError is produced. -/
theorem c5_user_rejection_propagation :
    (∀ o env hooks f err, ensureRedeemConfig o = .ok () →
      env.customRedeem = some f → f o = .error err → err.code = some 4001 →
      hooks.onError = true →
      (redeemPermissionModel o env hooks).2 =
        .error (.userRejected "User rejected the redemption.")
      ∧ (redeemPermissionModel o env hooks).1.filter REvent.isOnError =
        [.onErrorCalled (.userRejected "User rejected the redemption.")])
    ∧ (∀ o env hooks now tx err, ensureAutoRedeemConfig o = .ok () →
      truthyS o.backendEndpoint = false → o.hasWalletClient = true →
      truthyS o.delegationManager = true →
      buildRedeemCallData (autoToBuildOpts o (o.permissionType.getD .nativeTokenPeriodic)) = .ok tx →
      hooks.beforeSubmitTx = none → env.walletSend tx = .error err →
      err.code = some 4001 → hooks.onError = true →
      (autoRedeemModel o env hooks now).2 = .error err
      ∧ (autoRedeemModel o env hooks now).1.filter AutoEvent.isOnError =
        [.onErrorCalled err]) := by
  constructor
  · intro o env hooks f err hok hcr hf hcode hoe
    simp [redeemPermissionModel, redeemTryBody, hok, hcr, hf, hcode, hoe,
      onErrorEvents, REvent.isOnError]
  · intro o env hooks now tx err hok hbe hwc hdm hbuild hbst hsend hcode hoe
    simp [autoRedeemModel, autoTryBody, hok, hbe, hwc, hdm, hbuild, hbst,
      hsend, hoe, autoApplyHook, autoOnErrorEvents, AutoEvent.isOnError]

/-- Witness for C5 (amended) instantiating both branches at concrete
inputs: the explicit custom strategy rejecting with code 4001 and the
explicit wallet client rejecting with code 4001. -/
theorem c5_user_rejection_propagation_witness :
    ((redeemPermissionModel {
        permissionsContext := some "0xctx"
        recipient := some "0xrec"
        amount := some "3"
        permissionType := some .nativeTokenPeriodic }
      { customRedeem := some (fun _ => .error (.external (some 4001) "no")) }
      { onError := true }).2 =
      .error (.userRejected "User rejected the redemption."))
    ∧ ((autoRedeemModel c5AutoOpts c5Env c5Hooks 1700).2 =
      .error (.external (some 4001) "denied")) := by
  constructor
  · exact (c5_user_rejection_propagation.1 _ _ _
      (fun _ => .error (.external (some 4001) "no")) (.external (some 4001) "no")
      (by decide) rfl rfl rfl rfl).1
  · exact (c5_user_rejection_propagation.2 c5AutoOpts c5Env c5Hooks 1700
      { toAddr := "0xDM"
        data := {
          permissionsContext := some "0xctx"
          recipient := some "0xrec"
          amount := 1000000000000000000
          permissionType := some .nativeTokenPeriodic
          tokenAddress := zeroAddress
          tokenDecimals := 18 }
        value := 0 }
      (.external (some 4001) "denied")
      (by decide) (by decide) (by decide) (by decide) (by decide) rfl
      (by decide) rfl rfl).1

/-! ### Claim C7 — no resolvable strategy -/

/-- C7: a redemption that passes validation and supplies neither a custom
execution function nor a backend endpoint (and `redeemPermission` has no
wallet path) returns a success result carrying the prepared redeem request
and no transaction hash, raising no error. -/
theorem c7_no_strategy_prepared_success (o : RedeemPermissionOptions)
    (env : RedeemEnv) (hooks : RedeemHooks)
    (hok : ensureRedeemConfig o = .ok ()) (hcr : env.customRedeem = none)
    (hbe : truthyS o.backendEndpoint = false) :
    ∃ r, (redeemPermissionModel o env hooks).2 = .ok r
      ∧ r.success = true
      ∧ r.transactionHash = none
      ∧ r.redeemRequest.isSome = true := by
  refine ⟨{
    success := true
    redeemRequest := some (.perm (applyHook hooks.beforeRequest
      (applyHook hooks.beforeBuild (buildRedeemRequest o))))
    message := some "Redeem request prepared. Use customRedeem or backendEndpoint to submit." },
    ?_, rfl, rfl, rfl⟩
  simp [redeemPermissionModel, redeemTryBody, hok, hcr, hbe]

/-- Witness for C7 on concrete options with no strategy configured. -/
theorem c7_no_strategy_prepared_success_witness :
    ∃ r, (redeemPermissionModel {
        permissionsContext := some "0xctx"
        recipient := some "0xrec"
        amount := some "4"
        permissionType := some .nativeTokenStream } {} {}).2 = .ok r
      ∧ r.success = true
      ∧ r.transactionHash = none
      ∧ r.redeemRequest.isSome = true :=
  c7_no_strategy_prepared_success _ {} {} (by decide) rfl (by decide)

/-! ### Claim C8 — call-data builder token handling -/

/-- Shared lemma: when validation passes and a custom strategy is
supplied, the event log of `redeemPermissionModel` records exactly one
custom-strategy invocation whose argument is the ORIGINAL options record,
whatever the hooks do. -/
theorem customArgs_of_custom (o : RedeemPermissionOptions) (env : RedeemEnv)
    (hooks : RedeemHooks) (f : RedeemPermissionOptions → Except JsError RedeemResult)
    (hok : ensureRedeemConfig o = .ok ()) (hcr : env.customRedeem = some f) :
    customArgs (redeemPermissionModel o env hooks).1 = [o] := by
  cases hf : f o with
  | ok r =>
    simp [redeemPermissionModel, redeemTryBody, hok, hcr, hf,
      customArgs_append, customArgs_afterRequestEvents, customArgs_cons_custom,
      customArgs_nil]
  | error e =>
    by_cases hcode : e.code = some 4001 <;>
      simp [redeemPermissionModel, redeemTryBody, hok, hcr, hf, hcode,
        customArgs_append, customArgs_onErrorEvents, customArgs_cons_custom,
        customArgs_nil]

/-! ### Claim C9 — non-numeric amount strings -/

/-- Minimal valid redeem options around a given amount string. -/
def c9BaseOpts (s : String) : RedeemPermissionOptions := {
  permissionsContext := some "0xctx"
  recipient := some "0xrec"
  amount := some s
  permissionType := some .nativeTokenPeriodic }

/-- Minimal valid auto-redeem options around a given amount string. -/
def c9AutoOpts (s : String) : AutoRedeemOptions := {
  permissionsContext := some "0xctx"
  recipient := some "0xrec"
  amount := some s }

/-- C9: a non-empty amount string whose numeric parse is `NaN` never
trips the amount-positivity guard — `NaN <= 0` is false — so both
validators accept it and the redemption flows on to the chosen execution
strategy. -/
theorem c9_nan_amount_passes_validation (s : String)
    (hne : s.toList.isEmpty = false) (hnan : jsNumber s = none) :
    amountNonPositive (some s) = false
    ∧ ensureRedeemConfig (c9BaseOpts s) = .ok ()
    ∧ ensureAutoRedeemConfig (c9AutoOpts s) = .ok ()
    ∧ (∀ env hooks f, env.customRedeem = some f →
        customArgs (redeemPermissionModel (c9BaseOpts s) env hooks).1 = [c9BaseOpts s]) := by
  have hne2 : ¬ s.data = [] := by
    intro h
    rw [show s.toList = s.data from rfl, h] at hne
    simp at hne
  have hamt : amountNonPositive (some s) = false := by
    simp [amountNonPositive, hne2, hnan, jsLe, String.toList]
  have hok : ensureRedeemConfig (c9BaseOpts s) = .ok () := by
    simp [ensureRedeemConfig, c9BaseOpts, hamt,
      show truthyS (some "0xctx") = true from by decide,
      show truthyS (some "0xrec") = true from by decide,
      show strStartsWith "0xrec" "0x" = true from by decide,
      show truthyI none = false from rfl]
  refine ⟨hamt, hok, ?_, ?_⟩
  · simp [ensureAutoRedeemConfig, c9AutoOpts, hamt,
      show truthyS (some "0xctx") = true from by decide,
      show truthyS (some "0xrec") = true from by decide,
      show strStartsWith "0xrec" "0x" = true from by decide]
  · intro env hooks f hcr
    exact customArgs_of_custom _ _ _ _ hok hcr

/-- Witness for C9 at the concrete amount string `"abc"`. -/
theorem c9_nan_amount_passes_validation_witness :
    amountNonPositive (some "abc") = false
    ∧ ensureRedeemConfig (c9BaseOpts "abc") = .ok ()
    ∧ customArgs (redeemPermissionModel (c9BaseOpts "abc")
        { customRedeem := some (fun _ => .ok { success := true }) } {}).1 =
      [c9BaseOpts "abc"] := by
  have h := c9_nan_amount_passes_validation "abc" (by decide) (by decide)
  exact ⟨h.1, h.2.1, h.2.2.2 _ {} _ rfl⟩

/-! ### Claim C10 — custom strategy argument -/

/-- C10: when a custom execution function is supplied, `redeemPermission`
invokes it exactly once with the ORIGINAL options record — the
`beforeBuild` / `beforeRequest` hook replacements of the request payload
never change the argument the custom strategy receives. -/
theorem c10_custom_gets_original_options (o : RedeemPermissionOptions)
    (env : RedeemEnv) (hooks : RedeemHooks)
    (f : RedeemPermissionOptions → Except JsError RedeemResult)
    (hok : ensureRedeemConfig o = .ok ()) (hcr : env.customRedeem = some f) :
    customArgs (redeemPermissionModel o env hooks).1 = [o] :=
  customArgs_of_custom o env hooks f hok hcr

/-- Witness for C10 with hooks that replace the request payload at every
stage: the custom strategy still receives the original options. -/
theorem c10_custom_gets_original_options_witness :
    customArgs (redeemPermissionModel (c9BaseOpts "6")
      { customRedeem := some (fun _ => .ok { success := true }) }
      { beforeBuild := some (fun r => .sync (some { r with amount := some "999" }))
        beforeRequest := some (fun r => .async (some { r with recipient := some "0xother" })) }).1 =
    [c9BaseOpts "6"] :=
  c10_custom_gets_original_options _ _ _ _ (by decide) rfl

end MMAD
